import Mathlib

/-!
Verification of the blob subsystem of couchbase-lite-C (`include/cbl/CBLBlob.h`).

The repository ships only the C header: declarations, documentation comments and
two inline Fleece wrapper functions.  The data model and the behaviour of each
operation are therefore modelled from the specification (`spec.md`), faithfully
to its words; the two inline wrappers `FLValue_IsBlob` / `FLValue_GetBlob` are
translated directly from the header source.

Bytes are modelled as natural numbers (values below 256 in practice; nothing
here depends on the bound).  C nullable pointers become `Option`.
-/

/-- A byte of blob content. -/
abbrev Byte := Nat

/-- Modelled from the spec: reserved property names and the reserved blob type
tag (`kCBLTypeProperty`, `kCBLBlobType`, `kCBLBlobDigestProperty`,
`kCBLBlobLengthProperty`, `kCBLBlobContentTypeProperty` are declared `extern`
in the header; their values are the canonical Couchbase ones). -/
def kCBLTypeProperty : String := "@type"

/-- The reserved blob type tag stored under `kCBLTypeProperty`. -/
def kCBLBlobType : String := "blob"

/-- Reserved key of the digest field of a blob marker dictionary. -/
def kCBLBlobDigestProperty : String := "digest"

/-- Reserved key of the length field of a blob marker dictionary. -/
def kCBLBlobLengthProperty : String := "length"

/-- Reserved key of the optional MIME-type field of a blob marker dictionary. -/
def kCBLBlobContentTypeProperty : String := "content_type"

/-- One hexadecimal digit. -/
def hexChar (n : Nat) : Char :=
  if n < 10 then Char.ofNat (48 + n) else Char.ofNat (87 + n)

/-- Two hexadecimal digits for one byte. -/
def byteHex (b : Byte) : String :=
  String.mk [hexChar ((b % 256) / 16), hexChar (b % 16)]

/-- Modelled from the spec: the canonical digest of a byte sequence, in the
string form `<algorithm-tag>-<encoded-hash>`.  The cryptographic hash itself is
an external primitive; the spec treats collisions as impossible (digest equality
iff content equality), so the model uses an injective encoding of the content. -/
def digestOf (bytes : List Byte) : String :=
  "sha1-" ++ String.join (bytes.map byteHex)

/-- Modelled from the spec: a digest string is well formed when it carries the
algorithm tag and separator of the canonical form. -/
def digestWellFormed (s : String) : Bool :=
  s.startsWith "sha1-"

/-- Modelled from the spec: the incremental `DigestComputer`; `update` folds
byte chunks in order into the running state, `finalize` produces the canonical
digest of everything accumulated. -/
structure DigestComputer where
  acc : List Byte
deriving Repr, DecidableEq

/-- `update(bytes)`: fold a chunk into the running hash state. -/
def DigestComputer.update (c : DigestComputer) (bytes : List Byte) : DigestComputer :=
  ⟨c.acc ++ bytes⟩

/-- Modelled from the spec: `finalize()` consumes the accumulator and returns
the canonical digest. -/
def DigestComputer.finalizeDigest (c : DigestComputer) : String :=
  digestOf c.acc

/-- Modelled from the spec: the `ContentStore`, a content-addressable
repository mapping a digest to stored byte content. -/
structure ContentStore where
  entries : List (String × List Byte)
deriving Repr, DecidableEq

/-- Modelled from the spec: `exists(digest)`. -/
def ContentStore.existsDigest (s : ContentStore) (d : String) : Bool :=
  s.entries.any (fun e => e.1 == d)

/-- Number of physical copies stored under a digest. -/
def ContentStore.countDigest (s : ContentStore) (d : String) : Nat :=
  (s.entries.filter (fun e => e.1 == d)).length

/-- Modelled from the spec: `commit(tempContent, digest, length)` atomically
makes `tempContent` retrievable under `digest` if no entry for `digest` already
exists; if an entry already exists it discards `tempContent` (dedup) and
returns success without error. -/
def ContentStore.commit (s : ContentStore) (tempContent : List Byte) (d : String) :
    ContentStore :=
  if s.existsDigest d then s else ⟨(d, tempContent) :: s.entries⟩

/-- Modelled from the spec: `abort(tempContent)` discards uncommitted temporary
content; no effect on the store. -/
def ContentStore.abortTemp (s : ContentStore) (_tempContent : List Byte) : ContentStore :=
  s

/-- Modelled from the spec: `open_for_read(digest)`, `NotFound` as `none`. -/
def ContentStore.openForRead (s : ContentStore) (d : String) : Option (List Byte) :=
  (s.entries.find? (fun e => e.1 == d)).map (fun e => e.2)

/-- Fleece structured values, as far as the blob subsystem inspects them.
A C `FLValue` may be `NULL`; that is modelled by wrapping in `Option` at use
sites. -/
inductive FLVal where
  | nullV : FLVal
  | boolV : Bool → FLVal
  | intV : Int → FLVal
  | strV : String → FLVal
  | arrV : List FLVal → FLVal
  | dictV : List (String × FLVal) → FLVal

/-- A C `FLDict` is a nullable pointer to a dictionary. -/
abbrev FLDictRef := Option (List (String × FLVal))

/-- Lookup of a key in a Fleece dictionary (first matching entry). -/
def dictGet (es : List (String × FLVal)) (k : String) : Option FLVal :=
  (es.find? (fun p => p.1 == k)).map (fun p => p.2)

/-- `FLValue_AsDict`: returns the dictionary a value holds, or null when the
value is null or not a dictionary. -/
def FLValue_AsDict : Option FLVal → FLDictRef
  | some (FLVal.dictV es) => some es
  | _ => none

/-- Modelled from the spec: `cbl_isBlob` — true iff the (non-null) dictionary
carries the reserved type-marker field with the reserved blob value and a
well-formed digest field; any dictionary missing the marker, or with the
marker but a malformed digest, yields false (spec sections 4.5 and 8). -/
def cbl_isBlob : FLDictRef → Bool
  | none => false
  | some es =>
    (match dictGet es kCBLTypeProperty with
     | some (FLVal.strV t) => t == kCBLBlobType
     | _ => false)
    &&
    (match dictGet es kCBLBlobDigestProperty with
     | some (FLVal.strV d) => digestWellFormed d
     | _ => false)

/-- Modelled from the spec: the `BlobRecord` — digest, exact byte length,
optional MIME type and the marker property dictionary. -/
structure BlobRecord where
  digest : String
  length : Nat
  contentType : Option String
  props : List (String × FLVal)

/-- The blob marker properties embedded in a document dictionary for a blob of
digest `d`, byte count `len` and optional MIME type `ct`. -/
def blobProps (d : String) (len : Nat) (ct : Option String) : List (String × FLVal) :=
  [(kCBLTypeProperty, FLVal.strV kCBLBlobType),
   (kCBLBlobDigestProperty, FLVal.strV d),
   (kCBLBlobLengthProperty, FLVal.intV (Int.ofNat len))] ++
  (match ct with
   | some c => [(kCBLBlobContentTypeProperty, FLVal.strV c)]
   | none => [])

/-- Modelled from the spec: `cbl_blob_get` / `getBlob(dict)` — if
`isBlob(dict)`, constructs a BlobRecord view over the dictionary's
digest/length/content-type fields without I/O; null otherwise. -/
def cbl_blob_get (blobDict : FLDictRef) : Option BlobRecord :=
  match blobDict with
  | none => none
  | some es =>
    if cbl_isBlob (some es) then
      some
        { digest :=
            match dictGet es kCBLBlobDigestProperty with
            | some (FLVal.strV d) => d
            | _ => ""
          length :=
            match dictGet es kCBLBlobLengthProperty with
            | some (FLVal.intV n) => n.toNat
            | _ => 0
          contentType :=
            match dictGet es kCBLBlobContentTypeProperty with
            | some (FLVal.strV c) => some c
            | _ => none
          props := es }
    else none

/-- `FLValue_IsBlob`, translated from the header's inline definition:
`return cbl_isBlob(FLValue_AsDict(v));`. -/
def FLValue_IsBlob (v : Option FLVal) : Bool :=
  cbl_isBlob (FLValue_AsDict v)

/-- `FLValue_GetBlob`, translated from the header's inline definition:
`return cbl_blob_get(FLValue_AsDict(value));`. -/
def FLValue_GetBlob (value : Option FLVal) : Option BlobRecord :=
  cbl_blob_get (FLValue_AsDict value)

/-- `cbl_blob_digest`: the digest string from the record's metadata. -/
def cbl_blob_digest (b : BlobRecord) : Option String :=
  match dictGet b.props kCBLBlobDigestProperty with
  | some (FLVal.strV d) => some d
  | _ => none

/-- `cbl_blob_length`: the length in bytes from the record's metadata. -/
def cbl_blob_length (b : BlobRecord) : Nat :=
  match dictGet b.props kCBLBlobLengthProperty with
  | some (FLVal.intV n) => n.toNat
  | _ => 0

/-- `cbl_blob_contentType`: the MIME type, if the metadata has a
`kCBLBlobContentTypeProperty`; null otherwise. -/
def cbl_blob_contentType (b : BlobRecord) : Option String :=
  match dictGet b.props kCBLBlobContentTypeProperty with
  | some (FLVal.strV c) => some c
  | _ => none

/-- `cbl_blob_properties`: the record's metadata dictionary. -/
def cbl_blob_properties (b : BlobRecord) : List (String × FLVal) :=
  b.props

/-- Modelled from the spec: the WriteStream state machine
`Open -> Writing (self-loop) -> Committed | Aborted`. -/
inductive WSState where
  | opened : WSState
  | writing : WSState
  | committed : WSState
  | aborted : WSState
deriving Repr, DecidableEq

/-- A stream state in which writing and finalizing are valid. -/
def WSState.active : WSState → Bool
  | WSState.opened => true
  | WSState.writing => true
  | _ => false

/-- Modelled from the spec: the per-write session `WriteStream` — accumulated
bytes in temporary spill storage, running digest state, and the state-machine
state. -/
structure WriteStream where
  temp : List Byte
  hasher : DigestComputer
  state : WSState

/-- `cbl_blobwriter_new`: allocates temporary spill storage; state = Open.
The database handle and out-error of the C signature play no part in the
modelled behaviour. -/
def cbl_blobwriter_new : WriteStream :=
  ⟨[], ⟨[]⟩, WSState.opened⟩

/-- Modelled from the spec: `write(bytes)` — valid only in Open/Writing;
appends bytes to temporary storage and feeds the DigestComputer; returns
success or failure.  The `ioOk` flag models the underlying storage I/O
outcome; an I/O failure leaves the stream in Open/Writing unchanged. -/
def cbl_blobwriter_write (w : WriteStream) (data : List Byte) (ioOk : Bool) :
    Bool × WriteStream :=
  if w.state.active then
    if ioOk then
      (true, ⟨w.temp ++ data, w.hasher.update data, WSState.writing⟩)
    else
      (false, w)
  else
    (false, w)

/-- Modelled from the spec: `abort()` via `cbl_blobwriter_close` — valid from
Open/Writing; discards temporary storage; transitions to Aborted. -/
def cbl_blobwriter_close (w : WriteStream) : WriteStream :=
  ⟨[], w.hasher, WSState.aborted⟩

/-- Aborting a write session: the stream is closed and the store is asked to
discard the uncommitted temporary content (`ContentStore.abortTemp`), which by
the spec has no effect on the store. -/
def abortSession (w : WriteStream) (store : ContentStore) :
    WriteStream × ContentStore :=
  (cbl_blobwriter_close w, store.abortTemp w.temp)

/-- Modelled from the spec: `finalizeToBlob(contentType)` /
`cbl_blob_createWithStream` — valid only from Open/Writing; computes the final
digest, commits the accumulated temporary content to the ContentStore, and
returns a new BlobRecord whose properties embed digest/length/type-marker/
content-type; the stream transitions to Committed.  Invalid state yields the
invalid-state failure `none`. -/
def cbl_blob_createWithStream (contentType : Option String) (w : WriteStream)
    (store : ContentStore) : Option (BlobRecord × WriteStream × ContentStore) :=
  if w.state.active then
    let d := w.hasher.finalizeDigest
    some
      ({ digest := d
         length := w.temp.length
         contentType := contentType
         props := blobProps d w.temp.length contentType },
       ⟨w.temp, w.hasher, WSState.committed⟩,
       store.commit w.temp d)
  else
    none

/-- Modelled from the spec: `cbl_blob_createWithData(contentType, contents)` —
computes the digest over the full buffer in one pass, writes it to temporary
storage, and commits. -/
def cbl_blob_createWithData (contentType : Option String) (contents : List Byte)
    (store : ContentStore) : BlobRecord × ContentStore :=
  let d := digestOf contents
  ({ digest := d
     length := contents.length
     contentType := contentType
     props := blobProps d contents.length contentType },
   store.commit contents d)

/-- Writing a list of chunks in order through `cbl_blobwriter_write`, all
storage I/O succeeding. -/
def writeChunks (w : WriteStream) (cs : List (List Byte)) : WriteStream :=
  cs.foldl (fun w c => (cbl_blobwriter_write w c true).2) w

/-- Modelled from the spec: the per-read session `ReadStream` — open handle
onto content and a current read position. -/
structure ReadStream where
  content : List Byte
  pos : Nat
deriving Repr, DecidableEq

/-- Result of one `cbl_blobreader_read` call: the C return value (bytes read,
`0` at EOF, `-1` on error), the bytes copied out, the advanced stream, and the
error detail stored out-of-band in `CBLError` on failure. -/
structure ReadResult where
  retval : Int
  bytes : List Byte
  stream : ReadStream
  err : Option String
deriving Repr, DecidableEq

/-- Modelled from the spec and the header contract: `cbl_blobreader_read` —
copies up to `maxLength` bytes from the current position, advances the
position by the amount actually read; the return value is the actual number of
bytes read, `0` at EOF, `-1` on I/O failure with error detail stored
separately.  The `ioOk` flag models the underlying storage I/O outcome. -/
def cbl_blobreader_read (s : ReadStream) (maxLength : Nat) (ioOk : Bool) : ReadResult :=
  if ioOk then
    let chunk := (s.content.drop s.pos).take maxLength
    { retval := Int.ofNat chunk.length
      bytes := chunk
      stream := ⟨s.content, s.pos + chunk.length⟩
      err := none }
  else
    { retval := -1
      bytes := []
      stream := s
      err := some "I/O failure" }

/-- `cbl_blob_openContentStream`: opens a read stream on the blob's content
from the ContentStore, at position 0; NotFound when the content is absent. -/
def cbl_blob_openContentStream (b : BlobRecord) (store : ContentStore) :
    Option ReadStream :=
  (store.openForRead b.digest).map (fun content => ⟨content, 0⟩)

/-- Successive reads with the given requested capacities, in order, stopping
as soon as a read returns 0, concatenating the bytes returned. -/
def readConcat (s : ReadStream) : List Nat → List Byte
  | [] => []
  | cap :: caps =>
    let r := cbl_blobreader_read s cap true
    if r.retval = 0 then [] else r.bytes ++ readConcat r.stream caps

/-- Non-dictionary (or null) Fleece values, the domain of the null-safety
claim about the inline wrappers. -/
def isDictVal : Option FLVal → Bool
  | some (FLVal.dictV _) => true
  | _ => false

/-! ## Helper lemmas -/

theorem dictGet_blobProps_type (d : String) (len : Nat) (ct : Option String) :
    dictGet (blobProps d len ct) kCBLTypeProperty = some (FLVal.strV kCBLBlobType) :=
  rfl

theorem dictGet_blobProps_digest (d : String) (len : Nat) (ct : Option String) :
    dictGet (blobProps d len ct) kCBLBlobDigestProperty = some (FLVal.strV d) :=
  rfl

theorem dictGet_blobProps_length (d : String) (len : Nat) (ct : Option String) :
    dictGet (blobProps d len ct) kCBLBlobLengthProperty =
      some (FLVal.intV (Int.ofNat len)) :=
  rfl

theorem dictGet_blobProps_ct_none (d : String) (len : Nat) :
    dictGet (blobProps d len none) kCBLBlobContentTypeProperty = none :=
  rfl

theorem existsDigest_iff_countDigest_pos (s : ContentStore) (d : String) :
    s.existsDigest d = true ↔ 0 < s.countDigest d := by
  rw [ContentStore.existsDigest, ContentStore.countDigest,
    ← List.countP_eq_length_filter, List.countP_pos_iff, List.any_eq_true]

theorem commit_existsDigest (s : ContentStore) (content : List Byte) (d : String) :
    (s.commit content d).existsDigest d = true := by
  unfold ContentStore.commit
  split
  · assumption
  · simp [ContentStore.existsDigest]

theorem commit_countDigest (s : ContentStore) (content : List Byte) (d : String)
    (h : s.countDigest d ≤ 1) : (s.commit content d).countDigest d = 1 := by
  unfold ContentStore.commit
  split
  · rename_i hex
    have := (existsDigest_iff_countDigest_pos s d).mp hex
    omega
  · rename_i hex
    have h0 : s.countDigest d = 0 := by
      by_contra hne
      exact hex ((existsDigest_iff_countDigest_pos s d).mpr (Nat.pos_of_ne_zero hne))
    have hfil : (List.filter (fun e => e.1 == d) s.entries).length = 0 := h0
    simp [ContentStore.countDigest, List.filter_cons, hfil]

theorem writeChunks_spec (cs : List (List Byte)) (w : WriteStream)
    (h : w.state.active = true) :
    (writeChunks w cs).temp = w.temp ++ cs.flatten ∧
    (writeChunks w cs).hasher.acc = w.hasher.acc ++ cs.flatten ∧
    (writeChunks w cs).state.active = true := by
  induction cs generalizing w with
  | nil => simp [writeChunks, h]
  | cons c cs ih =>
    have hw : cbl_blobwriter_write w c true =
        (true, ⟨w.temp ++ c, w.hasher.update c, WSState.writing⟩) := by
      simp [cbl_blobwriter_write, h]
    have hstep : writeChunks w (c :: cs) =
        writeChunks ⟨w.temp ++ c, w.hasher.update c, WSState.writing⟩ cs := by
      simp [writeChunks, hw]
    obtain ⟨h1, h2, h3⟩ := ih ⟨w.temp ++ c, w.hasher.update c, WSState.writing⟩ rfl
    rw [hstep]
    refine ⟨?_, ?_, h3⟩
    · rw [h1]
      simp
    · rw [h2]
      simp [DigestComputer.update]

/-! ## Claims -/

/-- C7: for every WriteStream into which bytes have been written (as ordered
chunks `cs`), aborting the session leaves the ContentStore unchanged: no entry
for the digest of those bytes appears, a subsequent existence check for that
digest is false when it was not already present, the stream transitions to
Aborted and its temporary storage is discarded. -/
theorem c7_abort_leaves_store_unchanged (cs : List (List Byte)) (store : ContentStore)
    (h : store.existsDigest (digestOf cs.flatten) = false) :
    (abortSession (writeChunks cbl_blobwriter_new cs) store).2 = store ∧
    (abortSession (writeChunks cbl_blobwriter_new cs) store).2.existsDigest
      (digestOf cs.flatten) = false ∧
    (abortSession (writeChunks cbl_blobwriter_new cs) store).1.state = WSState.aborted ∧
    (abortSession (writeChunks cbl_blobwriter_new cs) store).1.temp = [] := by
  refine ⟨rfl, h, rfl, rfl⟩

/-- C7 witness: aborting after writing the single chunk `[1]` into an empty
store keeps the store empty. -/
theorem c7_witness :
    (abortSession (writeChunks cbl_blobwriter_new [[1]]) ⟨[]⟩).2 = (⟨[]⟩ : ContentStore) ∧
    (abortSession (writeChunks cbl_blobwriter_new [[1]]) ⟨[]⟩).2.existsDigest
      (digestOf [[1]].flatten) = false ∧
    (abortSession (writeChunks cbl_blobwriter_new [[1]]) ⟨[]⟩).1.state = WSState.aborted ∧
    (abortSession (writeChunks cbl_blobwriter_new [[1]]) ⟨[]⟩).1.temp = [] :=
  c7_abort_leaves_store_unchanged [[1]] ⟨[]⟩ (by decide)

/-- C8: a write call that fails with an I/O error on a stream in Open/Writing
returns failure, leaves the stream completely unchanged and still in
Open/Writing; the caller may then retry the write successfully or abort. -/
theorem c8_write_failure_not_poisoned (w : WriteStream) (data : List Byte)
    (h : w.state.active = true) :
    (cbl_blobwriter_write w data false).1 = false ∧
    (cbl_blobwriter_write w data false).2 = w ∧
    (cbl_blobwriter_write w data false).2.state.active = true ∧
    (cbl_blobwriter_write (cbl_blobwriter_write w data false).2 data true).1 = true ∧
    (cbl_blobwriter_close (cbl_blobwriter_write w data false).2).state =
      WSState.aborted := by
  simp [cbl_blobwriter_write, h, cbl_blobwriter_close]

/-- C8 witness: an I/O-failed write on a fresh stream is retryable. -/
theorem c8_witness :
    (cbl_blobwriter_write cbl_blobwriter_new [4] false).1 = false ∧
    (cbl_blobwriter_write cbl_blobwriter_new [4] false).2 = cbl_blobwriter_new ∧
    (cbl_blobwriter_write cbl_blobwriter_new [4] false).2.state.active = true ∧
    (cbl_blobwriter_write (cbl_blobwriter_write cbl_blobwriter_new [4] false).2
      [4] true).1 = true ∧
    (cbl_blobwriter_close (cbl_blobwriter_write cbl_blobwriter_new [4] false).2).state =
      WSState.aborted :=
  c8_write_failure_not_poisoned cbl_blobwriter_new [4] rfl

/-- C9: `cbl_isBlob` and `cbl_blob_get` accept a null dictionary, returning
false resp. null; the inline wrappers `FLValue_IsBlob` / `FLValue_GetBlob`
pass `FLValue_AsDict` of an arbitrary value, which is null for null or
non-dictionary values, so they return false resp. null there too. -/
theorem c9_null_and_nondict_safety (v : Option FLVal) (h : isDictVal v = false) :
    cbl_isBlob none = false ∧
    cbl_blob_get none = none ∧
    FLValue_IsBlob v = false ∧
    FLValue_GetBlob v = none := by
  have hv : FLValue_AsDict v = none := by
    cases v with
    | none => rfl
    | some x => cases x <;> first | rfl | simp [isDictVal] at h
  refine ⟨by decide, by simp [cbl_blob_get], ?_, ?_⟩
  · unfold FLValue_IsBlob
    rw [hv]
    decide
  · unfold FLValue_GetBlob
    rw [hv]
    simp [cbl_blob_get]

/-- C9 witness: an integer value is not a blob and yields no blob record. -/
theorem c9_witness :
    cbl_isBlob none = false ∧
    cbl_blob_get none = none ∧
    FLValue_IsBlob (some (FLVal.intV 3)) = false ∧
    FLValue_GetBlob (some (FLVal.intV 3)) = none :=
  c9_null_and_nondict_safety (some (FLVal.intV 3)) rfl

theorem contentType_of_props_none (b : BlobRecord)
    (hp : dictGet b.props kCBLBlobContentTypeProperty = none) :
    cbl_blob_contentType b = none := by
  unfold cbl_blob_contentType
  rw [hp]

theorem digest_of_props (b : BlobRecord) (dg : String)
    (hp : dictGet b.props kCBLBlobDigestProperty = some (FLVal.strV dg)) :
    cbl_blob_digest b = some dg := by
  unfold cbl_blob_digest
  rw [hp]

theorem length_of_props (b : BlobRecord) (n : Nat)
    (hp : dictGet b.props kCBLBlobLengthProperty = some (FLVal.intV (Int.ofNat n))) :
    cbl_blob_length b = n := by
  unfold cbl_blob_length
  rw [hp]
  simp

theorem createWithStream_active (ct : Option String) (w : WriteStream)
    (store : ContentStore) (h : w.state.active = true) :
    cbl_blob_createWithStream ct w store =
      some ({ digest := w.hasher.finalizeDigest
              length := w.temp.length
              contentType := ct
              props := blobProps w.hasher.finalizeDigest w.temp.length ct },
            ⟨w.temp, w.hasher, WSState.committed⟩,
            store.commit w.temp w.hasher.finalizeDigest) := by
  simp [cbl_blob_createWithStream, h]

theorem writeChunks_single (B : List Byte) :
    writeChunks cbl_blobwriter_new [B] = ⟨B, ⟨B⟩, WSState.writing⟩ := by
  simp [writeChunks, cbl_blobwriter_write, cbl_blobwriter_new, WSState.active,
    DigestComputer.update]

/-- C10: a blob created with a null contentType (eagerly from data or from a
finalized WriteStream) has no `kCBLBlobContentTypeProperty` in its metadata
and `cbl_blob_contentType` returns null, while the digest and length
accessors still return the content digest and the exact byte count. -/
theorem c10_contentType_optional (B : List Byte) (store : ContentStore) :
    cbl_blob_contentType (cbl_blob_createWithData none B store).1 = none ∧
    dictGet (cbl_blob_createWithData none B store).1.props
      kCBLBlobContentTypeProperty = none ∧
    cbl_blob_digest (cbl_blob_createWithData none B store).1 = some (digestOf B) ∧
    cbl_blob_length (cbl_blob_createWithData none B store).1 = B.length ∧
    cbl_blob_createWithStream none (writeChunks cbl_blobwriter_new [B]) store =
      some (⟨digestOf B, B.length, none, blobProps (digestOf B) B.length none⟩,
            ⟨B, ⟨B⟩, WSState.committed⟩, store.commit B (digestOf B)) ∧
    cbl_blob_contentType
      ⟨digestOf B, B.length, none, blobProps (digestOf B) B.length none⟩ = none ∧
    cbl_blob_digest
      ⟨digestOf B, B.length, none, blobProps (digestOf B) B.length none⟩ =
      some (digestOf B) ∧
    cbl_blob_length
      ⟨digestOf B, B.length, none, blobProps (digestOf B) B.length none⟩ = B.length := by
  refine ⟨?_, ?_, ?_, ?_, ?_, ?_, ?_, ?_⟩
  · exact contentType_of_props_none _
      (dictGet_blobProps_ct_none (digestOf B) B.length)
  · exact dictGet_blobProps_ct_none (digestOf B) B.length
  · exact digest_of_props _ (digestOf B)
      (dictGet_blobProps_digest (digestOf B) B.length none)
  · exact length_of_props _ B.length
      (dictGet_blobProps_length (digestOf B) B.length none)
  · rw [writeChunks_single]
    exact createWithStream_active none _ store rfl
  · exact contentType_of_props_none _
      (dictGet_blobProps_ct_none (digestOf B) B.length)
  · exact digest_of_props _ (digestOf B)
      (dictGet_blobProps_digest (digestOf B) B.length none)
  · exact length_of_props _ B.length
      (dictGet_blobProps_length (digestOf B) B.length none)

theorem commit_of_existsDigest (s : ContentStore) (c : List Byte) (d : String)
    (h : s.existsDigest d = true) : s.commit c d = s := by
  simp [ContentStore.commit, h]

/-- C1: creating a blob eagerly from the whole byte sequence `B` and creating
one through a WriteStream fed the chunks of any ordered partition of `B`, then
finalized, produce the same result: the same BlobRecord (hence the same
digest) and the same ContentStore. -/
theorem c1_createWithData_refines_stream (B : List Byte) (cs : List (List Byte))
    (ct : Option String) (store : ContentStore) (h : cs.flatten = B) :
    cbl_blob_createWithStream ct (writeChunks cbl_blobwriter_new cs) store =
      some ((cbl_blob_createWithData ct B store).1,
            ⟨B, ⟨B⟩, WSState.committed⟩,
            (cbl_blob_createWithData ct B store).2) := by
  obtain ⟨ht, ha, hs⟩ := writeChunks_spec cs cbl_blobwriter_new rfl
  have ht2 : (writeChunks cbl_blobwriter_new cs).temp = B := by
    rw [ht]
    simp [cbl_blobwriter_new, h]
  have ha2 : (writeChunks cbl_blobwriter_new cs).hasher.acc = B := by
    rw [ha]
    simp [cbl_blobwriter_new, h]
  have hd : (writeChunks cbl_blobwriter_new cs).hasher.finalizeDigest = digestOf B := by
    unfold DigestComputer.finalizeDigest
    rw [ha2]
  have hh : (writeChunks cbl_blobwriter_new cs).hasher = (⟨B⟩ : DigestComputer) := by
    rw [← ha2]
  rw [createWithStream_active ct _ store hs, hd, ht2, hh]
  rfl

/-- C1 witness: the partition `[[1], [2, 3]]` of `[1, 2, 3]`. -/
theorem c1_witness :
    cbl_blob_createWithStream none (writeChunks cbl_blobwriter_new [[1], [2, 3]])
        (⟨[]⟩ : ContentStore) =
      some ((cbl_blob_createWithData none [1, 2, 3] (⟨[]⟩ : ContentStore)).1,
            ⟨[1, 2, 3], ⟨[1, 2, 3]⟩, WSState.committed⟩,
            (cbl_blob_createWithData none [1, 2, 3] (⟨[]⟩ : ContentStore)).2) :=
  c1_createWithData_refines_stream [1, 2, 3] [[1], [2, 3]] none ⟨[]⟩ (by decide)

theorem commitTwice_core (B : List Byte) (ctA ctB : Option String)
    (store : ContentStore) (h : store.countDigest (digestOf B) ≤ 1) :
    cbl_blob_createWithStream ctA (writeChunks cbl_blobwriter_new [B]) store =
      some (⟨digestOf B, B.length, ctA, blobProps (digestOf B) B.length ctA⟩,
            ⟨B, ⟨B⟩, WSState.committed⟩, store.commit B (digestOf B)) ∧
    cbl_blob_createWithStream ctB (writeChunks cbl_blobwriter_new [B])
        (store.commit B (digestOf B)) =
      some (⟨digestOf B, B.length, ctB, blobProps (digestOf B) B.length ctB⟩,
            ⟨B, ⟨B⟩, WSState.committed⟩, store.commit B (digestOf B)) ∧
    (store.commit B (digestOf B)).countDigest (digestOf B) = 1 := by
  refine ⟨?_, ?_, commit_countDigest store B (digestOf B) h⟩
  · rw [writeChunks_single]
    exact createWithStream_active ctA _ store rfl
  · rw [writeChunks_single,
      createWithStream_active ctB (⟨B, ⟨B⟩, WSState.writing⟩ : WriteStream)
        (store.commit B (digestOf B)) rfl]
    have hcomm := commit_of_existsDigest (store.commit B (digestOf B)) B (digestOf B)
      (commit_existsDigest store B (digestOf B))
    simp [DigestComputer.finalizeDigest, hcomm]

/-- C3: two independent WriteStreams writing the same content `B` and each
finalized both succeed and return BlobRecords with equal digest and equal
length; the second commit leaves the store unchanged (the duplicate temporary
content is discarded) and the store retains exactly one physical copy. -/
theorem c3_duplicate_commit_idempotent (B : List Byte) (ct1 ct2 : Option String)
    (store : ContentStore) (h : store.countDigest (digestOf B) ≤ 1) :
    ∃ rec1 w1 s1 rec2 w2 s2,
      cbl_blob_createWithStream ct1 (writeChunks cbl_blobwriter_new [B]) store =
        some (rec1, w1, s1) ∧
      cbl_blob_createWithStream ct2 (writeChunks cbl_blobwriter_new [B]) s1 =
        some (rec2, w2, s2) ∧
      rec1.digest = rec2.digest ∧
      rec1.length = rec2.length ∧
      s2 = s1 ∧
      s1.countDigest (digestOf B) = 1 := by
  obtain ⟨h1, h2, h3⟩ := commitTwice_core B ct1 ct2 store h
  exact ⟨_, _, _, _, _, _, h1, h2, rfl, rfl, rfl, h3⟩

/-- C3 witness: committing `[1, 2]` twice into an empty store. -/
theorem c3_witness :
    ∃ rec1 w1 s1 rec2 w2 s2,
      cbl_blob_createWithStream none (writeChunks cbl_blobwriter_new [[1, 2]])
          (⟨[]⟩ : ContentStore) = some (rec1, w1, s1) ∧
      cbl_blob_createWithStream none (writeChunks cbl_blobwriter_new [[1, 2]]) s1 =
        some (rec2, w2, s2) ∧
      rec1.digest = rec2.digest ∧
      rec1.length = rec2.length ∧
      s2 = s1 ∧
      s1.countDigest (digestOf [1, 2]) = 1 :=
  c3_duplicate_commit_idempotent [1, 2] none none ⟨[]⟩ (by decide)

/-- C4: two write sessions producing identical content `B` and finalizing in
either serialization order both observe success with identical digests, and
exactly one physical copy of the content is retained in the ContentStore.
The spec makes `commit` atomic, so the interleavings of the race reduce to
the two serialization orders, selected here by `order`. -/
theorem c4_concurrent_same_digest_commits (B : List Byte) (ct1 ct2 : Option String)
    (store : ContentStore) (h : store.countDigest (digestOf B) ≤ 1) (order : Bool) :
    ∃ recA wA sA recB wB sB,
      cbl_blob_createWithStream (if order then ct1 else ct2)
          (writeChunks cbl_blobwriter_new [B]) store = some (recA, wA, sA) ∧
      cbl_blob_createWithStream (if order then ct2 else ct1)
          (writeChunks cbl_blobwriter_new [B]) sA = some (recB, wB, sB) ∧
      recA.digest = digestOf B ∧
      recB.digest = digestOf B ∧
      sB.countDigest (digestOf B) = 1 := by
  obtain ⟨h1, h2, h3⟩ := commitTwice_core B (if order then ct1 else ct2)
    (if order then ct2 else ct1) store h
  exact ⟨_, _, _, _, _, _, h1, h2, rfl, rfl, h3⟩

/-- C4 witness: the race on content `[9]` over an empty store, one order. -/
theorem c4_witness :
    ∃ recA wA sA recB wB sB,
      cbl_blob_createWithStream (if true then some "text/plain" else none)
          (writeChunks cbl_blobwriter_new [[9]]) (⟨[]⟩ : ContentStore) =
        some (recA, wA, sA) ∧
      cbl_blob_createWithStream (if true then none else some "text/plain")
          (writeChunks cbl_blobwriter_new [[9]]) sA = some (recB, wB, sB) ∧
      recA.digest = digestOf [9] ∧
      recB.digest = digestOf [9] ∧
      sB.countDigest (digestOf [9]) = 1 :=
  c4_concurrent_same_digest_commits [9] (some "text/plain") none ⟨[]⟩ (by decide) true

theorem take_append_drop_take_length (l : List Byte) (n : Nat) :
    l.take n ++ l.drop (l.take n).length = l := by
  rcases Nat.le_total n l.length with h | h
  · rw [List.length_take, Nat.min_eq_left h, List.take_append_drop]
  · rw [List.take_of_length_le h]
    simp

theorem readConcat_drop (caps : List Nat) (B : List Byte) (p : Nat)
    (hpos : ∀ c ∈ caps, 1 ≤ c) (hlen : B.length - p ≤ caps.length) :
    readConcat ⟨B, p⟩ caps = B.drop p := by
  induction caps generalizing p with
  | nil =>
    have hp : B.length ≤ p := by
      simp at hlen
      omega
    simp [readConcat, List.drop_eq_nil_of_le hp]
  | cons cap caps ih =>
    by_cases hp : B.length ≤ p
    · have hdnil : B.drop p = [] := List.drop_eq_nil_of_le hp
      simp [readConcat, cbl_blobreader_read, hdnil]
    · have hcap1 : 1 ≤ cap := hpos cap (by simp)
      have hckl : ((B.drop p).take cap).length = min cap (B.length - p) := by
        rw [List.length_take, List.length_drop]
      have hread : cbl_blobreader_read ⟨B, p⟩ cap true =
          { retval := Int.ofNat ((B.drop p).take cap).length
            bytes := (B.drop p).take cap
            stream := ⟨B, p + ((B.drop p).take cap).length⟩
            err := none } := by
        simp [cbl_blobreader_read]
      have hlen2 : B.length - p ≤ caps.length + 1 := by
        simpa using hlen
      have hne0 : ((B.drop p).take cap).length ≠ 0 := by
        have h1 := hckl
        omega
      have hne : ¬ (Int.ofNat ((B.drop p).take cap).length = 0) :=
        fun hc => hne0 (Int.ofNat.inj hc)
      have ih2 := ih (p + ((B.drop p).take cap).length)
        (fun c hc => hpos c (by simp [hc]))
        (by have h1 := hckl; omega)
      simp only [readConcat, hread, if_neg hne]
      rw [ih2]
      have hdd : B.drop (p + ((B.drop p).take cap).length) =
          (B.drop p).drop ((B.drop p).take cap).length := by
        rw [List.drop_drop, Nat.add_comm]
      rw [hdd, take_append_drop_take_length]

theorem openForRead_commit_fresh (store : ContentStore) (B : List Byte)
    (hfresh : store.existsDigest (digestOf B) = false) :
    (store.commit B (digestOf B)).openForRead (digestOf B) = some B := by
  simp [ContentStore.commit, hfresh, ContentStore.openForRead, List.find?]

/-- C2 (amended): for a blob created from `B` over a store not yet holding its
digest, opening a read stream yields content `B` at position 0, and successive
reads with any positive requested capacities (at least `B.length` of them
supplied), concatenated in order until a read returns 0, reproduce exactly
`B`. -/
theorem c2_read_roundtrip (B : List Byte) (caps : List Nat) (ct : Option String)
    (store : ContentStore) (hpos : ∀ c ∈ caps, 1 ≤ c)
    (hlen : B.length ≤ caps.length)
    (hfresh : store.existsDigest (digestOf B) = false) :
    cbl_blob_openContentStream (cbl_blob_createWithData ct B store).1
        (cbl_blob_createWithData ct B store).2 = some ⟨B, 0⟩ ∧
    readConcat ⟨B, 0⟩ caps = B := by
  constructor
  · have h1 : (cbl_blob_createWithData ct B store).1.digest = digestOf B := by rfl
    have h2 : (cbl_blob_createWithData ct B store).2 = store.commit B (digestOf B) := by
      rfl
    unfold cbl_blob_openContentStream
    rw [h1, h2, openForRead_commit_fresh store B hfresh]
    rfl
  · have := readConcat_drop caps B 0 hpos (by omega)
    simpa using this

/-- C2 witness: content `[1, 2]` read back with capacities `[1, 5]`. -/
theorem c2_witness :
    cbl_blob_openContentStream (cbl_blob_createWithData none [1, 2] ⟨[]⟩).1
        (cbl_blob_createWithData none [1, 2] ⟨[]⟩).2 = some ⟨[1, 2], 0⟩ ∧
    readConcat ⟨[1, 2], 0⟩ [1, 5] = [1, 2] :=
  c2_read_roundtrip [1, 2] [1, 5] none ⟨[]⟩ (by decide) (by decide) (by decide)

/-- C2 counterexample: the claim quantifies over every sequence of requested
capacities smaller than, equal to, or larger than the total length; a
requested capacity of 0 (smaller than the total length 1) makes the first
read return 0, so the concatenation stops empty and does not reproduce the
content. -/
theorem c2_counterexample : readConcat ⟨[7], 0⟩ [0] ≠ [7] := by decide

/-- C5 (amended): a read call with positive requested capacity returns 0
exactly when the position is at end-of-content; at end-of-content every read
(any capacity) returns 0, leaves the stream unchanged and sets no error, so
EOF is stable and never becomes an error; an I/O failure returns the distinct
value -1 with error detail retrievable separately. -/
theorem c5_read_eof_contract (s : ReadStream) (cap : Nat) (hcap : 1 ≤ cap) :
    ((cbl_blobreader_read s cap true).retval = 0 ↔ s.content.length ≤ s.pos) ∧
    (s.content.length ≤ s.pos →
      ∀ c : Nat, cbl_blobreader_read s c true =
        { retval := 0, bytes := [], stream := s, err := none }) ∧
    (∀ c : Nat, (cbl_blobreader_read s c false).retval = -1 ∧
      (cbl_blobreader_read s c false).err.isSome = true) := by
  obtain ⟨content, pos⟩ := s
  refine ⟨?_, ?_, ?_⟩
  · simp [cbl_blobreader_read, List.length_take, List.length_drop]
    omega
  · intro h c
    have hnil : content.drop pos = [] := List.drop_eq_nil_of_le h
    simp [cbl_blobreader_read, hnil]
  · intro c
    simp [cbl_blobreader_read]

/-- C5 witness: the contract at the one-byte stream `⟨[5], 0⟩`, capacity 1. -/
theorem c5_witness :
    ((cbl_blobreader_read ⟨[5], 0⟩ 1 true).retval = 0 ↔
      (⟨[5], 0⟩ : ReadStream).content.length ≤ (⟨[5], 0⟩ : ReadStream).pos) ∧
    ((⟨[5], 0⟩ : ReadStream).content.length ≤ (⟨[5], 0⟩ : ReadStream).pos →
      ∀ c : Nat, cbl_blobreader_read ⟨[5], 0⟩ c true =
        { retval := 0, bytes := [], stream := ⟨[5], 0⟩, err := none }) ∧
    (∀ c : Nat, (cbl_blobreader_read ⟨[5], 0⟩ c false).retval = -1 ∧
      (cbl_blobreader_read ⟨[5], 0⟩ c false).err.isSome = true) :=
  c5_read_eof_contract ⟨[5], 0⟩ 1 (by decide)

/-- C5 counterexample: a read with requested capacity 0 returns 0 although
the stream is not at end-of-content, so "returns 0 exactly when at
end-of-content" fails for capacity 0. -/
theorem c5_counterexample :
    (cbl_blobreader_read ⟨[5], 0⟩ 0 true).retval = 0 ∧
    ¬ ((⟨[5], 0⟩ : ReadStream).content.length ≤ (⟨[5], 0⟩ : ReadStream).pos) := by
  decide

theorem isBlob_marker_of (es : List (String × FLVal))
    (h : cbl_isBlob (some es) = true) :
    dictGet es kCBLTypeProperty = some (FLVal.strV kCBLBlobType) := by
  simp only [cbl_isBlob, Bool.and_eq_true] at h
  obtain ⟨h1, h2⟩ := h
  cases hty : dictGet es kCBLTypeProperty <;> rw [hty] at h1
  · simp at h1
  · rename_i v
    cases v <;> simp at h1
    subst h1
    rfl

theorem isBlob_digest_of (es : List (String × FLVal))
    (h : cbl_isBlob (some es) = true) :
    ∃ dg, dictGet es kCBLBlobDigestProperty = some (FLVal.strV dg) ∧
      digestWellFormed dg = true := by
  simp only [cbl_isBlob, Bool.and_eq_true] at h
  obtain ⟨h1, h2⟩ := h
  cases hdg : dictGet es kCBLBlobDigestProperty <;> rw [hdg] at h2
  · simp at h2
  · rename_i v
    cases v <;> simp at h2
    exact ⟨_, rfl, h2⟩

theorem isBlob_of_marker_digest (es : List (String × FLVal)) (dg : String)
    (h1 : dictGet es kCBLTypeProperty = some (FLVal.strV kCBLBlobType))
    (h2 : dictGet es kCBLBlobDigestProperty = some (FLVal.strV dg))
    (h3 : digestWellFormed dg = true) :
    cbl_isBlob (some es) = true := by
  simp only [cbl_isBlob, Bool.and_eq_true]
  rw [h1, h2]
  exact ⟨by simp, h3⟩

/-- C6 (amended): `cbl_isBlob` is true iff the dictionary is non-null,
contains the reserved type-marker field with the reserved blob value, and
contains a well-formed digest field; `cbl_blob_get` returns a BlobRecord
exactly when `cbl_isBlob` is true and null otherwise. -/
theorem c6_blob_marker_detection (d : FLDictRef) :
    (cbl_isBlob d = true ↔
      ∃ es, d = some es ∧
        dictGet es kCBLTypeProperty = some (FLVal.strV kCBLBlobType) ∧
        ∃ dg, dictGet es kCBLBlobDigestProperty = some (FLVal.strV dg) ∧
          digestWellFormed dg = true) ∧
    (cbl_blob_get d).isSome = cbl_isBlob d := by
  constructor
  · constructor
    · intro h
      cases d with
      | none => simp [cbl_isBlob] at h
      | some es => exact ⟨es, rfl, isBlob_marker_of es h, isBlob_digest_of es h⟩
    · rintro ⟨es, rfl, h1, dg, h2, h3⟩
      exact isBlob_of_marker_digest es dg h1 h2 h3
  · cases d with
    | none => simp [cbl_blob_get, cbl_isBlob]
    | some es =>
      cases hib : cbl_isBlob (some es) <;> simp [cbl_blob_get, hib]

/-- C6 counterexample: a dictionary carrying the reserved type marker with
the reserved blob value but a malformed digest is not recognized as a blob,
refuting the claim that `isBlob` is true whenever the marker is present. -/
theorem c6_counterexample :
    dictGet [(kCBLTypeProperty, FLVal.strV kCBLBlobType),
             (kCBLBlobDigestProperty, FLVal.strV "xyz")] kCBLTypeProperty =
      some (FLVal.strV kCBLBlobType) ∧
    cbl_isBlob (some [(kCBLTypeProperty, FLVal.strV kCBLBlobType),
                      (kCBLBlobDigestProperty, FLVal.strV "xyz")]) = false := by
  exact ⟨by rfl, by decide⟩
